import Mathlib

/-!
# NBA Live Win Probability Model — verification development

Shallow embedding of `src/newapp/predictor/model.py` (together with the
default configuration of `src/newapp/predictor/config.py`), and proofs of
the specified properties of the prediction pipeline.

Python floats are modelled as real numbers; Python ints as `Int`;
Python `None` as `Option.none`.  `math.tanh`, `math.atanh`, `math.exp`
and `math.sqrt` are modelled by `Real.tanh`, the log-based `atanh`
defined below, `Real.exp` and `Real.sqrt`.
-/

namespace NbaPicks

open Classical Real

/-- The subset of `DEFAULT_CONFIG` (`config.py`) that the model uses.
`CONFIG = load_config()` equals these defaults when no `config.json`
is present. -/
structure Config where
  home_court_adjustment : ℝ
  lead_scale : ℝ
  spread_scale : ℝ
  efficiency_scale : ℝ
  sigmoid_k : ℝ
  lead_weight_min : ℝ
  lead_weight_max : ℝ
  spread_base_weight : ℝ
  efficiency_weight_full : ℝ
  efficiency_weight_gated : ℝ
  possession_edge_weight_full : ℝ
  possession_edge_weight_gated : ℝ
  efficiency_gate_minutes : ℝ
  efficiency_gate_poss : ℝ
  possession_edge_gate_minutes : ℝ
  possession_edge_gate_poss : ℝ
  trailing_edge_min_margin : ℝ
  trailing_edge_factor_threshold : ℝ
  upset_min_minutes : ℝ
  upset_win_prob_threshold : ℝ
  upset_flip_buffer_threshold : ℝ
  upset_flip_swing_threshold : ℝ
  blowout_lead_threshold : ℝ
  blowout_minutes_threshold : ℝ
  ot_dampen_factor : ℝ
  possession_edge_scale : ℝ
  stale_warning_sec : ℝ
  stale_critical_sec : ℝ

/-- The global `CONFIG` instance: the `DEFAULT_CONFIG` values. -/
noncomputable def CONFIG : Config where
  home_court_adjustment := 2.5
  lead_scale := 0.15
  spread_scale := 0.08
  efficiency_scale := 5.0
  sigmoid_k := 2.5
  lead_weight_min := 0.20
  lead_weight_max := 0.35
  spread_base_weight := 0.40
  efficiency_weight_full := 0.25
  efficiency_weight_gated := 0.10
  possession_edge_weight_full := 0.12
  possession_edge_weight_gated := 0.05
  efficiency_gate_minutes := 18
  efficiency_gate_poss := 30
  possession_edge_gate_minutes := 24
  possession_edge_gate_poss := 40
  trailing_edge_min_margin := 3
  trailing_edge_factor_threshold := 0.15
  upset_min_minutes := 12
  upset_win_prob_threshold := 0.40
  upset_flip_buffer_threshold := 0.08
  upset_flip_swing_threshold := 4.0
  blowout_lead_threshold := 20
  blowout_minutes_threshold := 5
  ot_dampen_factor := 0.8
  possession_edge_scale := 4.0
  stale_warning_sec := 120
  stale_critical_sec := 300

/-- Model of `math.atanh`, written through `log` (the standard closed form, which
is what the C library computes): `atanh x = log ((1+x)/(1-x)) / 2`. -/
noncomputable def atanh (x : ℝ) : ℝ :=
  Real.log ((1 + x) / (1 - x)) / 2

/-- The `GameState` dataclass: current state of a game. -/
structure GameState where
  home_team : String
  away_team : String
  home_team_abbrev : String
  away_team_abbrev : String
  home_score : Int
  away_score : Int
  quarter : Int
  clock : Option String
  status : String

/-- The `TeamStats` dataclass: box score stats for a team. -/
structure TeamStats where
  fgm : Int
  fga : Int
  fg3m : Int
  fta : Int
  tov : Int
  orb : Int

/-- The `SeasonStats` dataclass: season average stats for a team. -/
structure SeasonStats where
  efg : ℝ
  tov_rate : ℝ

/-- The `FactorResult` dataclass: result of a single factor calculation. -/
structure FactorResult where
  name : String
  advantage : ℝ
  weight : ℝ
  active : Bool
  raw_value : Option ℝ := none
  gated : Option Bool := none

/-- The `PredictionResult` dataclass: complete prediction result. -/
structure PredictionResult where
  win_prob_home : ℝ
  win_prob_away : ℝ
  combined_score : ℝ
  confidence : String
  factors : List FactorResult
  trailing_team : Option String
  trailing_edge_alert : Bool
  is_blowout : Bool
  is_overtime : Bool
  minutes_played : ℝ
  minutes_remaining : ℝ
  flip_lead_home : Option ℝ
  flip_swing : Option ℝ
  underdog_team : Option String
  underdog_prob : Option ℝ
  underdog_watch : Bool
  underdog_reason : Option String
  underdog_close_to_flip : Bool

/-- Python `str.split(sep)` for a one-character separator, on the
character list of the string (the split of the empty string is a
singleton empty part, as in Python). -/
def split_chars (sep : Char) : List Char → List (List Char)
  | [] => [[]]
  | c :: cs =>
    let r := split_chars sep cs
    if c = sep then [] :: r
    else (c :: r.headD []) :: r.tail

/-- Python `int(s)` on an unsigned digit string: all characters must be
decimal digits and there must be at least one (else `ValueError`,
modelled as `none`). -/
def digits_to_nat (cs : List Char) : Option Nat :=
  if cs = [] then none
  else if cs.all fun c => c.isDigit then
    some (cs.foldl (fun n c => 10 * n + (c.toNat - 48)) 0)
  else none

/-- Python `int(s)`: an optional sign followed by digits. -/
def chars_to_int (cs : List Char) : Option Int :=
  match cs with
  | '-' :: rest => (digits_to_nat rest).map fun n => -(n : Int)
  | '+' :: rest => (digits_to_nat rest).map fun n => (n : Int)
  | _ => (digits_to_nat cs).map fun n => (n : Int)

/-- Model of `parse_clock`: parse "M:SS", "MM:SS" or "MM:SS.s"; an
absent or empty clock gives `none`; the minutes are parsed from the
part before the first colon, the seconds from the text before the
first dot of the second colon-separated part when one exists, and from
the digit zero otherwise; a failing int conversion (the ValueError
branch) gives `none`.  Strings are handled through their character
lists. -/
def parse_clock (clock_str : Option String) : Option (Int × Int) :=
  match clock_str with
  | none => none
  | some s =>
    if s.data = [] then none
    else
      let parts := split_chars ':' s.data
      let mpart := parts.headD []
      let spart :=
        if 1 < parts.length then (split_chars '.' (parts.getD 1 [])).headD []
        else ['0']
      match chars_to_int mpart, chars_to_int spart with
      | some m, some sec => some (m, sec)
      | _, _ => none

/-- Model of `calc_time_values`: minutes remaining and minutes played from the
period index and the parsed clock. -/
noncomputable def calc_time_values (quarter clock_minutes clock_seconds : Int) : ℝ × ℝ :=
  if quarter ≤ 4 then
    let minutes_remaining :=
      max 0 (((4 - quarter : Int) : ℝ) * 12 + (clock_minutes : ℝ) + (clock_seconds : ℝ) / 60)
    (minutes_remaining, 48 - minutes_remaining)
  else
    let ot_period := quarter - 4
    let ot_clock_elapsed := 5 - ((clock_minutes : ℝ) + (clock_seconds : ℝ) / 60)
    let minutes_remaining := max 0 (5 - ot_clock_elapsed)
    (minutes_remaining, 48 + (((ot_period : Int) : ℝ) - 1) * 5 + ot_clock_elapsed)

/-- Model of `calc_possessions`: the floored `max(FGA + 0.44*FTA + TOV - ORB, 1)`. -/
noncomputable def calc_possessions (fga fta tov orb : Int) : ℝ :=
  max ((fga : ℝ) + 0.44 * (fta : ℝ) + (tov : ℝ) - (orb : ℝ)) 1

/-- Model of `calc_efg`: effective field goal percentage, `0.0` when `fga = 0`. -/
noncomputable def calc_efg (fgm fg3m fga : Int) : ℝ :=
  if fga = 0 then 0 else ((fgm : ℝ) + 0.5 * (fg3m : ℝ)) / (fga : ℝ)

/-- Model of `calc_tov_rate`: turnover rate (possessions already guarded ≥ 1). -/
noncomputable def calc_tov_rate (tov : Int) (poss : ℝ) : ℝ :=
  (tov : ℝ) / poss

/-- Model of `calc_lead_advantage`: time-adjusted lead advantage with a weight
interpolating between `lead_weight_min` and `lead_weight_max`. -/
noncomputable def calc_lead_advantage (home_score away_score : Int)
    (minutes_remaining minutes_played : ℝ) : FactorResult :=
  let raw_lead := home_score - away_score
  let adjusted_lead := (raw_lead : ℝ) - CONFIG.home_court_adjustment
  let lead_score := adjusted_lead / Real.sqrt (minutes_remaining + 1)
  let lead_advantage := Real.tanh (lead_score * CONFIG.lead_scale)
  let game_progress := min 1 (minutes_played / 48)
  let lead_base_weight := CONFIG.lead_weight_min +
    (CONFIG.lead_weight_max - CONFIG.lead_weight_min) * game_progress
  { name := "lead", advantage := lead_advantage, weight := lead_base_weight,
    active := true, raw_value := some (raw_lead : ℝ) }

/-- Model of `calc_spread_advantage`: spread advantage from the pre-game spread;
inactive factor with weight 0 when the spread is unavailable. -/
noncomputable def calc_spread_advantage (spread : Option ℝ) : FactorResult :=
  match spread with
  | some s =>
    { name := "spread", advantage := Real.tanh (s * -CONFIG.spread_scale),
      weight := CONFIG.spread_base_weight, active := true, raw_value := some s }
  | none =>
    { name := "spread", advantage := 0.0, weight := 0.0, active := false,
      raw_value := none }

/-- Model of `calc_efficiency_advantage`: live shooting efficiency versus season
baseline, gated by minutes played and possessions. -/
noncomputable def calc_efficiency_advantage (home_stats away_stats : TeamStats)
    (home_season away_season : SeasonStats) (minutes_played : ℝ) : FactorResult :=
  let home_poss := calc_possessions home_stats.fga home_stats.fta home_stats.tov home_stats.orb
  let away_poss := calc_possessions away_stats.fga away_stats.fta away_stats.tov away_stats.orb
  let home_efg := calc_efg home_stats.fgm home_stats.fg3m home_stats.fga
  let away_efg := calc_efg away_stats.fgm away_stats.fg3m away_stats.fga
  let home_eff_delta := home_efg - home_season.efg
  let away_eff_delta := away_efg - away_season.efg
  let efficiency_advantage := Real.tanh ((home_eff_delta - away_eff_delta) * CONFIG.efficiency_scale)
  let min_poss := min home_poss away_poss
  let wg : ℝ × Bool :=
    if minutes_played < CONFIG.efficiency_gate_minutes ∨ min_poss < CONFIG.efficiency_gate_poss
    then (CONFIG.efficiency_weight_gated, true)
    else (CONFIG.efficiency_weight_full, false)
  { name := "efficiency", advantage := efficiency_advantage, weight := wg.1,
    active := true, gated := some wg.2 }

/-- Model of `calc_possession_edge_advantage`: turnover and offensive-rebound
margins as extra possessions, gated like efficiency. -/
noncomputable def calc_possession_edge_advantage (home_stats away_stats : TeamStats)
    (minutes_played : ℝ) : FactorResult :=
  let home_poss := calc_possessions home_stats.fga home_stats.fta home_stats.tov home_stats.orb
  let away_poss := calc_possessions away_stats.fga away_stats.fta away_stats.tov away_stats.orb
  let total_poss := max (home_poss + away_poss) 1
  let extra_poss := (away_stats.tov - home_stats.tov) + (home_stats.orb - away_stats.orb)
  let poss_edge_rate := (extra_poss : ℝ) / total_poss
  let advantage := Real.tanh (poss_edge_rate * CONFIG.possession_edge_scale)
  let min_poss := min home_poss away_poss
  let wg : ℝ × Bool :=
    if minutes_played < CONFIG.possession_edge_gate_minutes ∨ min_poss < CONFIG.possession_edge_gate_poss
    then (CONFIG.possession_edge_weight_gated, true)
    else (CONFIG.possession_edge_weight_full, false)
  { name := "possession_edge", advantage := advantage, weight := wg.1,
    active := true, raw_value := some (extra_poss : ℝ), gated := some wg.2 }

/-- The total weight of the active factors, `sum(f.weight for f in
factors if f.active)`. -/
noncomputable def active_weight_total (factors : List FactorResult) : ℝ :=
  ((factors.filter fun f => f.active).map fun f => f.weight).sum

/-- Model of `normalize_weights`: divide every active factor weight by the active
total (the source rebuilds each active `FactorResult` field by field);
when the total is 0 the list is returned unchanged. -/
noncomputable def normalize_weights (factors : List FactorResult) : List FactorResult :=
  let total := active_weight_total factors
  if total = 0 then factors
  else
    factors.map fun f =>
      if f.active then
        { name := f.name, advantage := f.advantage, weight := f.weight / total,
          active := f.active, raw_value := f.raw_value, gated := f.gated }
      else f

/-- Model of `calc_combined_score`: weighted sum of active advantages, dampened
by `ot_dampen_factor` in overtime. -/
noncomputable def calc_combined_score (factors : List FactorResult) (is_overtime : Bool) : ℝ :=
  let combined := ((factors.filter fun f => f.active).map fun f => f.weight * f.advantage).sum
  if is_overtime then combined * CONFIG.ot_dampen_factor else combined

/-- Model of `calc_win_probability`: sigmoid of the combined score. -/
noncomputable def calc_win_probability (combined : ℝ) : ℝ × ℝ :=
  let win_prob_home := 1 / (1 + Real.exp (-CONFIG.sigmoid_k * combined))
  (win_prob_home, 1 - win_prob_home)

/-- Model of `calc_flip_lead_home`: the home lead needed to flip the combined
score to exactly 0 (a 50 percent outcome), inverting the lead formula;
`none` when the lead factor is missing, inactive or weightless, or when
the required lead advantage is in the saturated region. -/
noncomputable def calc_flip_lead_home (factors : List FactorResult)
    (minutes_remaining : ℝ) : Option ℝ :=
  match factors.find? fun f => f.name = "lead" with
  | none => none
  | some lead_factor =>
    if lead_factor.active = false ∨ lead_factor.weight = 0 then none
    else
      let other_contrib :=
        ((factors.filter fun f => f.active ∧ f.name ≠ "lead").map
          fun f => f.weight * f.advantage).sum
      let target_lead_adv := -other_contrib / lead_factor.weight
      if target_lead_adv ≤ -0.999 ∨ 0.999 ≤ target_lead_adv then none
      else
        let lead_score := atanh target_lead_adv / CONFIG.lead_scale
        let adjusted_lead := lead_score * Real.sqrt (minutes_remaining + 1)
        some (adjusted_lead + CONFIG.home_court_adjustment)

/-- Model of `get_underdog_team`: the string "home" when the
home-perspective spread is positive, "away" when negative, `none` for
no spread or pick-em. -/
noncomputable def get_underdog_team (spread : Option ℝ) : Option String :=
  match spread with
  | none => none
  | some s => if s = 0 then none else if 0 < s then some "home" else some "away"

/-- Model of `check_blowout`: garbage-time test on the raw margin; returns the
blowout flag and, when set, the override probability pair. -/
noncomputable def check_blowout (home_score away_score : Int)
    (minutes_remaining : ℝ) : Bool × Option (ℝ × ℝ) :=
  let raw_lead := home_score - away_score
  if CONFIG.blowout_lead_threshold ≤ (|raw_lead| : ℤ) ∧
      minutes_remaining ≤ CONFIG.blowout_minutes_threshold then
    if 0 < raw_lead then (true, some (0.99, 0.01)) else (true, some (0.01, 0.99))
  else (false, none)

/-- Python `max` over a nonempty list (fold from the head); 0 for `[]`
(unused: the caller guards against the empty list). -/
noncomputable def list_max : List ℝ → ℝ
  | [] => 0
  | a :: l => l.foldl max a

/-- Python `min` over a nonempty list (fold from the head); 0 for `[]`
(unused: the caller guards against the empty list). -/
noncomputable def list_min : List ℝ → ℝ
  | [] => 0
  | a :: l => l.foldl min a

/-- The advantages of the active factors, `[f.advantage for f in factors
if f.active]`. -/
noncomputable def active_advantages (factors : List FactorResult) : List ℝ :=
  (factors.filter fun f => f.active).map fun f => f.advantage

/-- Model of `calc_confidence`: confidence label from factor agreement, data
freshness and game progress. -/
noncomputable def calc_confidence (factors : List FactorResult)
    (data_age_sec minutes_played : ℝ) (spread_available : Bool) : String :=
  let advs := active_advantages factors
  if advs.length = 0 then "Low"
  else
    let factor_spread := list_max advs - list_min advs
    let all_same_sign := (∀ a ∈ advs, 0 ≤ a) ∨ (∀ a ∈ advs, a ≤ 0)
    if CONFIG.stale_critical_sec ≤ data_age_sec then "Low"
    else if 0.20 < factor_spread then "Low"
    else if minutes_played < 12 then "Low"
    else
      let max_confidence := if spread_available then "High" else "Medium"
      if ¬all_same_sign then "Medium"
      else if CONFIG.stale_warning_sec ≤ data_age_sec then "Medium"
      else if minutes_played < 24 then "Medium"
      else max_confidence

/-- Model of `check_trailing_edge`: trailing team from the raw score, and the
alert raised when the margin is big enough and at least two active
factors favour the trailing team. -/
noncomputable def check_trailing_edge (home_score away_score : Int)
    (factors : List FactorResult) : Option String × Bool :=
  if home_score = away_score then (none, false)
  else
    let tt : String × ℝ :=
      if away_score < home_score then ("away", -1) else ("home", 1)
    let lead_margin : ℤ := |home_score - away_score|
    let active_factors := factors.filter fun f => f.active
    if active_factors.length = 0 then (some tt.1, false)
    else
      let favoring := (active_factors.filter fun f =>
        CONFIG.trailing_edge_factor_threshold ≤ f.advantage * tt.2).length
      let show_alert :=
        CONFIG.trailing_edge_min_margin ≤ (lead_margin : ℝ) ∧ 2 ≤ favoring
      (some tt.1, if show_alert then true else false)

/-- Model of `get_game_status`: classify the snapshot; the "Final"
test comes before the pre-game test. -/
def get_game_status (status : String) (period : Int) (clock : Option String) : String :=
  if status = "Final" then "final"
  else if period = 0 ∨ clock = none then "pre_game"
  else if clock = some "0:00" ∧ (period = 1 ∨ period = 3) then "between_quarters"
  else if clock = some "0:00" ∧ period = 2 then "halftime"
  else "in_progress"

/-- The clock pair used by `predict`: the parsed clock, or `(0, 0)` when
the parse gives `None`. -/
def predict_clock (gs : GameState) : Int × Int :=
  (parse_clock gs.clock).getD (0, 0)

/-- The `minutes_remaining` that `predict` computes for a snapshot. -/
noncomputable def snap_minutes_remaining (gs : GameState) : ℝ :=
  (calc_time_values gs.quarter (predict_clock gs).1 (predict_clock gs).2).1

/-- The `minutes_played` that `predict` computes for a snapshot. -/
noncomputable def snap_minutes_played (gs : GameState) : ℝ :=
  (calc_time_values gs.quarter (predict_clock gs).1 (predict_clock gs).2).2

/-- The inactive zero-weight lead factor that `predict` builds pre-game. -/
noncomputable def pre_game_lead_factor : FactorResult :=
  { name := "lead", advantage := 0.0, weight := 0.0, active := false }

/-- The inactive zero-weight efficiency factor that `predict` builds
pre-game. -/
noncomputable def pre_game_efficiency_factor : FactorResult :=
  { name := "efficiency", advantage := 0.0, weight := 0.0, active := false }

/-- The factor list that `predict` assembles: lead, spread, efficiency
and (when enabled and not pre-game) possession edge; pre-game forces
lead and efficiency inactive. -/
noncomputable def predict_factors (gs : GameState) (home_stats away_stats : TeamStats)
    (home_season away_season : SeasonStats) (spread : Option ℝ)
    (enable_possession_edge : Bool) : List FactorResult :=
  let game_status := get_game_status gs.status gs.quarter gs.clock
  let minutes_remaining := snap_minutes_remaining gs
  let minutes_played := snap_minutes_played gs
  let lead_factor :=
    if game_status = "pre_game" then pre_game_lead_factor
    else calc_lead_advantage gs.home_score gs.away_score minutes_remaining minutes_played
  let efficiency_factor :=
    if game_status = "pre_game" then pre_game_efficiency_factor
    else calc_efficiency_advantage home_stats away_stats home_season away_season minutes_played
  let possession_edge_factor : Option FactorResult :=
    if game_status = "pre_game" then none
    else if enable_possession_edge then
      some (calc_possession_edge_advantage home_stats away_stats minutes_played)
    else none
  let spread_factor := calc_spread_advantage spread
  [lead_factor, spread_factor, efficiency_factor] ++ possession_edge_factor.toList

/-- Model of `calc_underdog_watch`: whether the pre-game underdog is capable of
winning; returns `(underdog_prob, underdog_watch, reason)`.  With the
default thresholds the probability reason string is "prob >= 40%". -/
noncomputable def calc_underdog_watch (underdog_team : Option String)
    (win_prob_home win_prob_away combined_score minutes_played data_age_sec : ℝ)
    (trailing_team : Option String) (trailing_edge_alert : Bool)
    (is_blowout : Bool) : Option ℝ × Bool × Option String :=
  match underdog_team with
  | none => (none, false, none)
  | some ut =>
    let underdog_prob := if ut = "home" then win_prob_home else win_prob_away
    if is_blowout then (some underdog_prob, false, none)
    else if minutes_played < CONFIG.upset_min_minutes then (some underdog_prob, false, none)
    else if CONFIG.stale_warning_sec ≤ data_age_sec then (some underdog_prob, false, none)
    else
      let reason : Option String :=
        if CONFIG.upset_win_prob_threshold ≤ underdog_prob then some "prob >= 40%"
        else if |combined_score| ≤ CONFIG.upset_flip_buffer_threshold then some "near 50%"
        else if trailing_edge_alert = true ∧ trailing_team = some ut then some "trailing edge"
        else none
      (some underdog_prob, reason.isSome, reason)

/-- Model of `calc_underdog_close_to_flip`: the underdog is below 50 percent and
within a small swing of the flip point. -/
noncomputable def calc_underdog_close_to_flip (underdog_prob : Option ℝ)
    (combined_score : ℝ) (flip_swing : Option ℝ)
    (minutes_played data_age_sec : ℝ) (is_blowout : Bool) : Bool :=
  match underdog_prob with
  | none => false
  | some p =>
    if 0.5 ≤ p then false
    else if is_blowout then false
    else if minutes_played < CONFIG.upset_min_minutes then false
    else if CONFIG.stale_warning_sec ≤ data_age_sec then false
    else
      match flip_swing with
      | none => false
      | some fs =>
        if |combined_score| ≤ CONFIG.upset_flip_buffer_threshold ∧
            |fs| ≤ CONFIG.upset_flip_swing_threshold then true else false

/-- Model of `predict`, the main prediction function.  Mirrors the source: parse
the clock (`(0,0)` fallback), compute time values, build the factor
list (pre-game forces lead and efficiency inactive), abstain when the
total weight is 0, normalize, combine, map to a probability, solve the
flip lead, apply the blowout override (`if is_blowout and blowout_probs`
is the `(true, some _)` case), then the classifiers and alerts. -/
noncomputable def predict (gs : GameState) (home_stats away_stats : TeamStats)
    (home_season away_season : SeasonStats) (spread : Option ℝ)
    (data_age_sec : ℝ) (enable_possession_edge : Bool) :
    Option PredictionResult :=
  let minutes_remaining := snap_minutes_remaining gs
  let minutes_played := snap_minutes_played gs
  let is_overtime : Bool := 4 < gs.quarter
  let factors0 := predict_factors gs home_stats away_stats home_season away_season
    spread enable_possession_edge
  let total_weight := (factors0.map fun f => f.weight).sum
  if total_weight = 0 then none
  else
    let factors := normalize_weights factors0
    let combined := calc_combined_score factors is_overtime
    let wp := calc_win_probability combined
    let flip_lead_home := calc_flip_lead_home factors minutes_remaining
    let flip_swing := flip_lead_home.map
      fun fl => fl - ((gs.home_score - gs.away_score : Int) : ℝ)
    let bo := check_blowout gs.home_score gs.away_score minutes_remaining
    let ov : (ℝ × ℝ) × Option ℝ × Option ℝ :=
      match bo with
      | (true, some bp) => (bp, none, none)
      | _ => (wp, flip_lead_home, flip_swing)
    let confidence := calc_confidence factors data_age_sec minutes_played
      (calc_spread_advantage spread).active
    let te := check_trailing_edge gs.home_score gs.away_score factors
    let underdog_team := get_underdog_team spread
    let uw := calc_underdog_watch underdog_team ov.1.1 ov.1.2 combined
      minutes_played data_age_sec te.1 te.2 bo.1
    let underdog_close_to_flip := calc_underdog_close_to_flip uw.1 combined
      ov.2.2 minutes_played data_age_sec bo.1
    some
      { win_prob_home := ov.1.1
        win_prob_away := ov.1.2
        combined_score := combined
        confidence := confidence
        factors := factors
        trailing_team := te.1
        trailing_edge_alert := te.2
        is_blowout := bo.1
        is_overtime := is_overtime
        minutes_played := minutes_played
        minutes_remaining := minutes_remaining
        flip_lead_home := ov.2.1
        flip_swing := ov.2.2
        underdog_team := underdog_team
        underdog_prob := uw.1
        underdog_watch := uw.2.1
        underdog_reason := uw.2.2
        underdog_close_to_flip := underdog_close_to_flip }

/-- The `other_contrib` sum inside `calc_flip_lead_home`: weighted
advantages of the active non-lead factors. -/
noncomputable def other_contrib (factors : List FactorResult) : ℝ :=
  ((factors.filter fun f => f.active ∧ f.name ≠ "lead").map
    fun f => f.weight * f.advantage).sum

/-! ### Concrete sample inputs used in witnesses and counterexamples -/

/-- All-zero box score (a game that has not started scoring). -/
def stats0 : TeamStats := ⟨0, 0, 0, 0, 0, 0⟩

/-- A league-average season baseline. -/
noncomputable def season0 : SeasonStats := ⟨0.5, 0.13⟩

/-- A placeholder result used only as the `Option.getD` default. -/
noncomputable def dummy_result : PredictionResult :=
  { win_prob_home := 0, win_prob_away := 0, combined_score := 0, confidence := "",
    factors := [], trailing_team := none, trailing_edge_alert := false,
    is_blowout := false, is_overtime := false, minutes_played := 0,
    minutes_remaining := 0, flip_lead_home := none, flip_swing := none,
    underdog_team := none, underdog_prob := none, underdog_watch := false,
    underdog_reason := none, underdog_close_to_flip := false }

/-- A blowout snapshot: home leads 100 to 70 with 2:00 left in Q4. -/
def gs_blowout : GameState :=
  ⟨"Home", "Away", "HOM", "AWY", 100, 70, 4, some "2:00", "in_progress"⟩

/-- The prediction for `gs_blowout` (nonempty, as proved below). -/
noncomputable def r_blowout : PredictionResult :=
  (predict gs_blowout stats0 stats0 season0 season0 none 0 false).getD dummy_result

/-- A pre-game snapshot: period 0, no clock, no score. -/
def gs_pre : GameState :=
  ⟨"Home", "Away", "HOM", "AWY", 0, 0, 0, none, "scheduled"⟩

/-- Period 1, scores on the board, but the clock field is absent. -/
def gs_noclock : GameState :=
  ⟨"Home", "Away", "HOM", "AWY", 30, 10, 1, none, "in_progress"⟩

/-- The same snapshot as `gs_noclock` with an unparseable clock string. -/
def gs_badclock : GameState :=
  ⟨"Home", "Away", "HOM", "AWY", 30, 10, 1, some "invalid", "in_progress"⟩

/-- A finished game: status "Final". -/
def gs_final : GameState :=
  ⟨"Home", "Away", "HOM", "AWY", 101, 95, 4, some "0:00", "Final"⟩

/-- A two-factor list for the flip-lead witness. -/
noncomputable def C6_factors : List FactorResult :=
  [⟨"lead", 0.3, 0.5, true, none, none⟩, ⟨"spread", 0.2, 0.5, true, none, none⟩]

/-- A two-factor list for the confidence witness. -/
noncomputable def C7_factors : List FactorResult :=
  [⟨"lead", 0.1, 0.5, true, none, none⟩, ⟨"spread", 0.05, 0.5, true, none, none⟩]

/-! ## Mathematical helper lemmas -/

theorem tanh_lt_one (x : ℝ) : Real.tanh x < 1 := by
  rw [Real.tanh_eq_sinh_div_cosh, div_lt_one (Real.cosh_pos x)]
  nlinarith [Real.cosh_sub_sinh x, Real.exp_pos (-x)]

theorem neg_one_lt_tanh (x : ℝ) : -1 < Real.tanh x := by
  rw [Real.tanh_eq_sinh_div_cosh, lt_div_iff₀ (Real.cosh_pos x)]
  nlinarith [Real.cosh_add_sinh x, Real.exp_pos x]

theorem tanh_mem_Icc (x : ℝ) : Real.tanh x ∈ Set.Icc (-1 : ℝ) 1 :=
  ⟨(neg_one_lt_tanh x).le, (tanh_lt_one x).le⟩

theorem tanh_atanh {x : ℝ} (h1 : -1 < x) (h2 : x < 1) :
    Real.tanh (atanh x) = x := by
  have hx1 : (0:ℝ) < 1 - x := by linarith
  have hx2 : (0:ℝ) < 1 + x := by linarith
  have hu : (0:ℝ) < (1 + x) / (1 - x) := div_pos hx2 hx1
  have hy : Real.exp (atanh x) * Real.exp (atanh x) = (1 + x) / (1 - x) := by
    rw [← Real.exp_add, atanh]
    have h : Real.log ((1 + x) / (1 - x)) / 2 + Real.log ((1 + x) / (1 - x)) / 2 =
        Real.log ((1 + x) / (1 - x)) := by ring
    rw [h, Real.exp_log hu]
  have hy' : Real.exp (atanh x) * Real.exp (atanh x) * (1 - x) = 1 + x := by
    rw [hy]; field_simp
  have hapos : 0 < Real.exp (atanh x) := Real.exp_pos _
  have hane : Real.exp (atanh x) ≠ 0 := ne_of_gt hapos
  rw [Real.tanh_eq_sinh_div_cosh, Real.sinh_eq, Real.cosh_eq, Real.exp_neg]
  have hden : Real.exp (atanh x) + (Real.exp (atanh x))⁻¹ ≠ 0 := by positivity
  field_simp
  linear_combination hy'

/-! ## Component helper lemmas -/

theorem check_blowout_cases (h a : Int) (mr : ℝ) :
    check_blowout h a mr = (false, none) ∨
    check_blowout h a mr = (true, some (0.99, 0.01)) ∨
    check_blowout h a mr = (true, some (0.01, 0.99)) := by
  unfold check_blowout
  dsimp only
  split_ifs <;> simp

/-! ## C9 -/

/-- C9: for all (integer) box-score inputs `calc_possessions` returns at
least 1, and `calc_efg` returns exactly 0 when `fga = 0`; the divisions
by these quantities downstream are therefore safe. -/
theorem C9_possessions_efg_guards (fga fta tov orb fgm fg3m : Int) :
    1 ≤ calc_possessions fga fta tov orb ∧ calc_efg fgm fg3m 0 = 0 := by
  constructor
  · exact le_max_right _ _
  · simp [calc_efg]

/-! ## C8 -/

/-- C8: for all scores, spread values, box-score counts, season
baselines and non-negative time values, each of the four factor
calculators returns an advantage in the closed interval `[-1, 1]`. -/
theorem C8_advantages_bounded (hs as : TeamStats) (hss ass : SeasonStats)
    (home_score away_score : Int) (spread : Option ℝ)
    (minutes_remaining minutes_played : ℝ)
    (hmr : 0 ≤ minutes_remaining) (hmp : 0 ≤ minutes_played) :
    (calc_lead_advantage home_score away_score minutes_remaining
        minutes_played).advantage ∈ Set.Icc (-1 : ℝ) 1 ∧
    (calc_spread_advantage spread).advantage ∈ Set.Icc (-1 : ℝ) 1 ∧
    (calc_efficiency_advantage hs as hss ass
        minutes_played).advantage ∈ Set.Icc (-1 : ℝ) 1 ∧
    (calc_possession_edge_advantage hs as
        minutes_played).advantage ∈ Set.Icc (-1 : ℝ) 1 := by
  refine ⟨?_, ?_, ?_, ?_⟩
  · exact tanh_mem_Icc _
  · cases spread with
    | none =>
      simp only [calc_spread_advantage]
      constructor <;> norm_num
    | some s => exact tanh_mem_Icc _
  · exact tanh_mem_Icc _
  · exact tanh_mem_Icc _

/-- Witness for C8 at a concrete all-zero snapshot. -/
theorem C8_witness :
    (0 : ℝ) ≤ 0 ∧
    (calc_lead_advantage 0 0 0 0).advantage ∈ Set.Icc (-1 : ℝ) 1 ∧
    (calc_spread_advantage none).advantage ∈ Set.Icc (-1 : ℝ) 1 ∧
    (calc_efficiency_advantage ⟨0, 0, 0, 0, 0, 0⟩ ⟨0, 0, 0, 0, 0, 0⟩
        ⟨0.5, 0.13⟩ ⟨0.5, 0.13⟩ 0).advantage ∈ Set.Icc (-1 : ℝ) 1 ∧
    (calc_possession_edge_advantage ⟨0, 0, 0, 0, 0, 0⟩
        ⟨0, 0, 0, 0, 0, 0⟩ 0).advantage ∈ Set.Icc (-1 : ℝ) 1 := by
  refine ⟨le_refl 0, ?_⟩
  have h := C8_advantages_bounded ⟨0, 0, 0, 0, 0, 0⟩ ⟨0, 0, 0, 0, 0, 0⟩
    ⟨0.5, 0.13⟩ ⟨0.5, 0.13⟩ 0 0 none 0 0 (le_refl 0) (le_refl 0)
  exact ⟨h.1, h.2.1, h.2.2.1, h.2.2.2⟩

/-! ## C1 -/

/-- C1: `calc_win_probability` always returns a pair summing to 1 with
both components in `[0, 1]`; a combined score of 0 gives exactly
`(0.5, 0.5)`; and every `PredictionResult` returned by `predict`
(including the blowout-override pair) has probabilities summing to 1. -/
theorem C1_win_probability_pair :
    (∀ combined : ℝ,
      (calc_win_probability combined).1 + (calc_win_probability combined).2 = 1 ∧
      (calc_win_probability combined).1 ∈ Set.Icc (0 : ℝ) 1 ∧
      (calc_win_probability combined).2 ∈ Set.Icc (0 : ℝ) 1) ∧
    calc_win_probability 0 = (0.5, 0.5) ∧
    (∀ (gs : GameState) (hs as : TeamStats) (hss ass : SeasonStats)
      (spread : Option ℝ) (age : ℝ) (en : Bool) (r : PredictionResult),
      predict gs hs as hss ass spread age en = some r →
      r.win_prob_home + r.win_prob_away = 1) := by
  have hpair : ∀ combined : ℝ,
      (calc_win_probability combined).1 + (calc_win_probability combined).2 = 1 ∧
      (calc_win_probability combined).1 ∈ Set.Icc (0 : ℝ) 1 ∧
      (calc_win_probability combined).2 ∈ Set.Icc (0 : ℝ) 1 := by
    intro c
    unfold calc_win_probability
    dsimp only
    have hexp : 0 < Real.exp (-CONFIG.sigmoid_k * c) := Real.exp_pos _
    have hden : (0 : ℝ) < 1 + Real.exp (-CONFIG.sigmoid_k * c) := by linarith
    have h0 : 0 ≤ 1 / (1 + Real.exp (-CONFIG.sigmoid_k * c)) := by positivity
    have h1 : 1 / (1 + Real.exp (-CONFIG.sigmoid_k * c)) ≤ 1 := by
      rw [div_le_one hden]; linarith
    exact ⟨by ring, ⟨h0, h1⟩, ⟨by linarith, by linarith⟩⟩
  refine ⟨hpair, ?_, ?_⟩
  · unfold calc_win_probability
    dsimp only
    rw [mul_zero, Real.exp_zero]
    norm_num
  · intro gs hs as hss ass spread age en r hres
    unfold predict at hres
    dsimp only at hres
    split at hres
    · exact absurd hres (by simp)
    · rcases check_blowout_cases gs.home_score gs.away_score
        (snap_minutes_remaining gs) with hb | hb | hb <;>
        rw [hb] at hres <;>
        dsimp only at hres <;>
        rw [Option.some.injEq] at hres <;>
        rw [← hres] <;>
        dsimp only
      · have := (hpair (calc_combined_score
          (normalize_weights (predict_factors gs hs as hss ass spread en))
          (decide (4 < gs.quarter)))).1
        exact this
      · norm_num
      · norm_num

/-! ## C2 -/

theorem active_weight_total_map_div (l : List FactorResult) (t : ℝ) :
    active_weight_total (l.map fun f =>
      if f.active = true then
        { name := f.name, advantage := f.advantage, weight := f.weight / t,
          active := f.active, raw_value := f.raw_value, gated := f.gated }
      else f) = active_weight_total l / t := by
  induction l with
  | nil => simp [active_weight_total]
  | cons f l ih =>
    unfold active_weight_total at ih ⊢
    cases hf : f.active with
    | true => simp [List.filter_cons, hf, add_div, ih]
    | false => simp [List.filter_cons, hf, ih]

/-- C2: `normalize_weights` returns the list unchanged when the active
total is 0; otherwise every active factor keeps all its fields except
that its weight is divided by the active total (inactive factors are
untouched), and the active weights of the result sum to exactly 1. -/
theorem C2_normalize_weights (factors : List FactorResult) :
    (active_weight_total factors = 0 → normalize_weights factors = factors) ∧
    (active_weight_total factors ≠ 0 →
      normalize_weights factors = (factors.map fun f =>
        if f.active = true then
          { f with weight := f.weight / active_weight_total factors }
        else f) ∧
      active_weight_total (normalize_weights factors) = 1) := by
  constructor
  · intro h
    unfold normalize_weights
    rw [if_pos h]
  · intro h
    have hmapeq : normalize_weights factors = factors.map fun f =>
        if f.active = true then
          { f with weight := f.weight / active_weight_total factors }
        else f := by
      unfold normalize_weights
      rw [if_neg h]
    refine ⟨hmapeq, ?_⟩
    rw [hmapeq]
    have := active_weight_total_map_div factors (active_weight_total factors)
    rw [this, div_self h]

/-- Witness for C2: a two-factor list with active total 0.3 normalizes
to active total 1; an all-inactive list is returned unchanged. -/
theorem C2_witness :
    active_weight_total
      [⟨"lead", 0.5, 0.3, true, none, none⟩,
       ⟨"spread", 0.1, 0.2, false, none, none⟩] ≠ (0 : ℝ) ∧
    active_weight_total (normalize_weights
      [⟨"lead", 0.5, 0.3, true, none, none⟩,
       ⟨"spread", 0.1, 0.2, false, none, none⟩]) = 1 ∧
    normalize_weights [⟨"x", 0.1, 0.7, false, none, none⟩] =
      [⟨"x", 0.1, 0.7, false, none, none⟩] := by
  have h1 : active_weight_total
      [(⟨"lead", 0.5, 0.3, true, none, none⟩ : FactorResult),
       ⟨"spread", 0.1, 0.2, false, none, none⟩] = (0.3 : ℝ) := by
    simp [active_weight_total]
  have h2 : active_weight_total
      [(⟨"x", 0.1, 0.7, false, none, none⟩ : FactorResult)] = (0 : ℝ) := by
    simp [active_weight_total]
  have hne : active_weight_total
      [(⟨"lead", 0.5, 0.3, true, none, none⟩ : FactorResult),
       ⟨"spread", 0.1, 0.2, false, none, none⟩] ≠ (0 : ℝ) := by
    rw [h1]; norm_num
  exact ⟨hne, ((C2_normalize_weights _).2 hne).2, (C2_normalize_weights _).1 h2⟩

/-! ## C6 -/

/-- C6: `calc_flip_lead_home` returns `none` when the (first) lead
factor is inactive, weightless, or the target advantage
`t = -other/w_L` is saturated (`|t| ≥ 0.999`); otherwise it returns
`L = (atanh t / lead_scale) * sqrt(minutes_remaining+1) + home_court_adjustment`,
and this is the exact algebraic inverse of the lead-advantage formula:
substituting the margin `L` back gives advantage `t`, and the weighted
sum `w_L * t + other` is exactly 0. -/
theorem C6_flip_lead_inverse (factors : List FactorResult)
    (minutes_remaining : ℝ) (lf : FactorResult)
    (hfind : factors.find? (fun f => f.name = "lead") = some lf)
    (hmr : 0 ≤ minutes_remaining) :
    ((lf.active = false ∨ lf.weight = 0 ∨
        -other_contrib factors / lf.weight ≤ -0.999 ∨
        (0.999 : ℝ) ≤ -other_contrib factors / lf.weight) →
      calc_flip_lead_home factors minutes_remaining = none) ∧
    (lf.active = true → lf.weight ≠ 0 →
      -0.999 < -other_contrib factors / lf.weight →
      -other_contrib factors / lf.weight < 0.999 →
      calc_flip_lead_home factors minutes_remaining =
        some (atanh (-other_contrib factors / lf.weight) / CONFIG.lead_scale *
          Real.sqrt (minutes_remaining + 1) + CONFIG.home_court_adjustment) ∧
      Real.tanh ((atanh (-other_contrib factors / lf.weight) / CONFIG.lead_scale *
          Real.sqrt (minutes_remaining + 1) + CONFIG.home_court_adjustment -
          CONFIG.home_court_adjustment) / Real.sqrt (minutes_remaining + 1) *
          CONFIG.lead_scale) = -other_contrib factors / lf.weight ∧
      lf.weight * (-other_contrib factors / lf.weight) +
        other_contrib factors = 0) := by
  unfold calc_flip_lead_home
  rw [hfind]
  dsimp only
  have hO : ((factors.filter fun f => f.active ∧ f.name ≠ "lead").map
      fun f => f.weight * f.advantage).sum = other_contrib factors := rfl
  rw [hO]
  constructor
  · intro h
    by_cases h1 : lf.active = false ∨ lf.weight = 0
    · rw [if_pos h1]
    · rw [if_neg h1]
      have h2 : -other_contrib factors / lf.weight ≤ -0.999 ∨
          (0.999 : ℝ) ≤ -other_contrib factors / lf.weight := by
        rcases h with h | h | h | h
        · exact absurd (Or.inl h) h1
        · exact absurd (Or.inr h) h1
        · exact Or.inl h
        · exact Or.inr h
      rw [if_pos]
      exact h2
  · intro ha hw h1 h2
    have hc1 : ¬(lf.active = false ∨ lf.weight = 0) := by
      rintro (h | h)
      · rw [ha] at h; exact Bool.noConfusion h
      · exact hw h
    have hc2 : ¬(-other_contrib factors / lf.weight ≤ -0.999 ∨
        (0.999 : ℝ) ≤ -other_contrib factors / lf.weight) := by
      rintro (h | h) <;> linarith
    rw [if_neg hc1, if_neg hc2]
    have hsqrt : Real.sqrt (minutes_remaining + 1) ≠ 0 := by
      have : (0 : ℝ) < minutes_remaining + 1 := by linarith
      exact ne_of_gt (Real.sqrt_pos.mpr this)
    have hls : CONFIG.lead_scale ≠ 0 := by
      unfold CONFIG
      norm_num
    refine ⟨rfl, ?_, ?_⟩
    · have harg : (atanh (-other_contrib factors / lf.weight) / CONFIG.lead_scale *
          Real.sqrt (minutes_remaining + 1) + CONFIG.home_court_adjustment -
          CONFIG.home_court_adjustment) / Real.sqrt (minutes_remaining + 1) *
          CONFIG.lead_scale = atanh (-other_contrib factors / lf.weight) := by
        field_simp
        ring
      rw [harg]
      exact tanh_atanh (by linarith) (by linarith)
    · field_simp
      ring

/-- Witness for C6: a lead factor of weight 0.5 beside a spread factor
contributing 0.1; the target advantage is -0.2 and the flip lead is
returned and inverts exactly. -/
theorem C6_witness :
    calc_flip_lead_home C6_factors 3 =
      some (atanh (-other_contrib C6_factors / (0.5 : ℝ)) / CONFIG.lead_scale *
        Real.sqrt (3 + 1) + CONFIG.home_court_adjustment) ∧
    Real.tanh ((atanh (-other_contrib C6_factors / (0.5 : ℝ)) / CONFIG.lead_scale *
        Real.sqrt (3 + 1) + CONFIG.home_court_adjustment -
        CONFIG.home_court_adjustment) / Real.sqrt (3 + 1) * CONFIG.lead_scale) =
      -other_contrib C6_factors / (0.5 : ℝ) ∧
    (0.5 : ℝ) * (-other_contrib C6_factors / (0.5 : ℝ)) +
      other_contrib C6_factors = 0 := by
  have hoc : other_contrib C6_factors = 0.1 := by
    unfold other_contrib C6_factors
    simp
    norm_num
  have hfind : C6_factors.find? (fun f => f.name = "lead") =
      some ⟨"lead", 0.3, 0.5, true, none, none⟩ := by
    unfold C6_factors
    simp [List.find?]
  have h := C6_flip_lead_inverse C6_factors 3 ⟨"lead", 0.3, 0.5, true, none, none⟩
    hfind (by norm_num)
  have h2 := h.2 rfl (by norm_num) (by rw [hoc]; norm_num) (by rw [hoc]; norm_num)
  exact h2

/-! ## C7 -/

/-- C7: with no active factors `calc_confidence` is "Low"
unconditionally; otherwise it is "Low" exactly on the hard floors
(critical staleness, advantage spread over 0.20, or under 12 minutes
played), and when none of those hold it is "High" exactly when the
spread is available, all active advantages share a sign, the data age
is under the warning threshold and at least 24 minutes are played —
and "Medium" in every other case. -/
theorem C7_confidence (factors : List FactorResult) (age mp : ℝ) (sa : Bool) :
    (active_advantages factors = [] → calc_confidence factors age mp sa = "Low") ∧
    (active_advantages factors ≠ [] →
      ((calc_confidence factors age mp sa = "Low" ↔
          CONFIG.stale_critical_sec ≤ age ∨
          0.20 < list_max (active_advantages factors) -
            list_min (active_advantages factors) ∨
          mp < 12) ∧
        (¬(CONFIG.stale_critical_sec ≤ age ∨
            0.20 < list_max (active_advantages factors) -
              list_min (active_advantages factors) ∨
            mp < 12) →
          ((calc_confidence factors age mp sa = "High" ↔
              sa = true ∧
              ((∀ a ∈ active_advantages factors, 0 ≤ a) ∨
                (∀ a ∈ active_advantages factors, a ≤ 0)) ∧
              age < CONFIG.stale_warning_sec ∧ 24 ≤ mp) ∧
            (calc_confidence factors age mp sa = "Medium" ↔
              ¬(sa = true ∧
                ((∀ a ∈ active_advantages factors, 0 ≤ a) ∨
                  (∀ a ∈ active_advantages factors, a ≤ 0)) ∧
                age < CONFIG.stale_warning_sec ∧ 24 ≤ mp)))))) := by
  constructor
  · intro h
    unfold calc_confidence
    rw [if_pos]
    rw [h]
    rfl
  · intro h
    have hlen : ¬(active_advantages factors).length = 0 := by
      simpa [List.length_eq_zero] using h
    unfold calc_confidence
    rw [if_neg hlen]
    dsimp only
    split_ifs with h1 h2 h3 h4 h5 h6 h7 <;>
      simp_all [not_lt, not_le]

/-- Witness for C7: two agreeing active factors, fresh data, 30 minutes
played and an available spread give "High". -/
theorem C7_witness : calc_confidence C7_factors 30 30 true = "High" := by
  have hadv : active_advantages C7_factors = [0.1, 0.05] := by
    unfold active_advantages C7_factors
    simp
  have hne : active_advantages C7_factors ≠ [] := by
    rw [hadv]
    simp
  have hmax : list_max (active_advantages C7_factors) = 0.1 := by
    rw [hadv]
    unfold list_max
    simp [max_eq_left]
    norm_num
  have hmin : list_min (active_advantages C7_factors) = 0.05 := by
    rw [hadv]
    unfold list_min
    simp [min_eq_right]
    norm_num
  have hnotlow : ¬(CONFIG.stale_critical_sec ≤ (30 : ℝ) ∨
      0.20 < list_max (active_advantages C7_factors) -
        list_min (active_advantages C7_factors) ∨
      (30 : ℝ) < 12) := by
    rw [hmax, hmin]
    unfold CONFIG
    norm_num
  have h := ((C7_confidence C7_factors 30 30 true).2 hne).2 hnotlow
  refine h.1.mpr ⟨rfl, ?_, ?_, by norm_num⟩
  · left
    rw [hadv]
    intro a ha
    simp at ha
    rcases ha with rfl | rfl <;> norm_num
  · unfold CONFIG
    norm_num

/-! ## Helper lemmas about `predict` -/

theorem game_status_pre_iff (status : String) (period : Int) (clock : Option String) :
    get_game_status status period clock = "pre_game" ↔
      status ≠ "Final" ∧ (period = 0 ∨ clock = none) := by
  unfold get_game_status
  split_ifs with h1 h2 h3 h4 <;> simp_all

theorem lead_weight_lb (h a : Int) (mr mp : ℝ) (hmp : 0 ≤ mp) :
    0.20 ≤ (calc_lead_advantage h a mr mp).weight := by
  unfold calc_lead_advantage
  dsimp only
  have h1 : 0 ≤ min 1 (mp / 48) := le_min (by norm_num) (by positivity)
  have h2 : (0 : ℝ) ≤ 0.35 - 0.20 := by norm_num
  unfold CONFIG
  dsimp only
  nlinarith

theorem efficiency_weight_lb (hs as : TeamStats) (hss ass : SeasonStats) (mp : ℝ) :
    0.10 ≤ (calc_efficiency_advantage hs as hss ass mp).weight := by
  unfold calc_efficiency_advantage
  dsimp only
  split_ifs <;> norm_num [CONFIG]

theorem spread_weight_nonneg (spread : Option ℝ) :
    0 ≤ (calc_spread_advantage spread).weight := by
  cases spread <;> unfold calc_spread_advantage <;> dsimp only <;> norm_num [CONFIG]

theorem possession_edge_weight_nonneg (hs as : TeamStats) (mp : ℝ) :
    0 ≤ (calc_possession_edge_advantage hs as mp).weight := by
  unfold calc_possession_edge_advantage
  dsimp only
  split_ifs <;> norm_num [CONFIG]

/-- `predict` abstains exactly when the raw factor weights sum to 0. -/
theorem predict_none_iff_total (gs : GameState) (hs as : TeamStats)
    (hss ass : SeasonStats) (spread : Option ℝ) (age : ℝ) (en : Bool) :
    predict gs hs as hss ass spread age en = none ↔
      ((predict_factors gs hs as hss ass spread en).map fun f => f.weight).sum = 0 := by
  unfold predict
  dsimp only
  split_ifs with h <;> simp [h]

/-- Outside pre-game the raw factor weights sum to at least 0.30 (given
non-negative minutes played), so `predict` cannot abstain. -/
theorem predict_factors_sum_pos (gs : GameState) (hs as : TeamStats)
    (hss ass : SeasonStats) (spread : Option ℝ) (en : Bool)
    (hst : get_game_status gs.status gs.quarter gs.clock ≠ "pre_game")
    (hmp : 0 ≤ snap_minutes_played gs) :
    0 < ((predict_factors gs hs as hss ass spread en).map fun f => f.weight).sum := by
  unfold predict_factors
  dsimp only
  rw [if_neg hst, if_neg hst, if_neg hst]
  have h1 := lead_weight_lb gs.home_score gs.away_score (snap_minutes_remaining gs)
    (snap_minutes_played gs) hmp
  have h2 := efficiency_weight_lb hs as hss ass (snap_minutes_played gs)
  have h3 := spread_weight_nonneg spread
  cases en with
  | false =>
    simp only [Bool.false_eq_true, if_false, Option.toList_none, List.append_nil,
      List.map_cons, List.map_nil, List.sum_cons, List.sum_nil]
    linarith
  | true =>
    have h4 := possession_edge_weight_nonneg hs as (snap_minutes_played gs)
    simp only [if_true, Option.toList_some, List.map_append, List.map_cons,
      List.map_nil, List.sum_append, List.sum_cons, List.sum_nil]
    linarith

/-- The factor list of every returned result is the normalized raw
factor list. -/
theorem predict_result_factors (gs : GameState) (hs as : TeamStats)
    (hss ass : SeasonStats) (spread : Option ℝ) (age : ℝ) (en : Bool)
    (r : PredictionResult)
    (hres : predict gs hs as hss ass spread age en = some r) :
    r.factors = normalize_weights (predict_factors gs hs as hss ass spread en) := by
  unfold predict at hres
  dsimp only at hres
  split at hres
  · exact absurd hres (by simp)
  · rw [Option.some.injEq] at hres
    rw [← hres]

theorem check_blowout_eval_pos (h a : Int) (mr : ℝ)
    (hl : CONFIG.blowout_lead_threshold ≤ ((|h - a| : ℤ) : ℝ))
    (hm : mr ≤ CONFIG.blowout_minutes_threshold) (hpos : 0 < h - a) :
    check_blowout h a mr = (true, some (0.99, 0.01)) := by
  unfold check_blowout
  dsimp only
  rw [if_pos ⟨hl, hm⟩, if_pos hpos]

theorem check_blowout_eval_neg (h a : Int) (mr : ℝ)
    (hl : CONFIG.blowout_lead_threshold ≤ ((|h - a| : ℤ) : ℝ))
    (hm : mr ≤ CONFIG.blowout_minutes_threshold) (hneg : h - a < 0) :
    check_blowout h a mr = (true, some (0.01, 0.99)) := by
  unfold check_blowout
  dsimp only
  rw [if_pos ⟨hl, hm⟩, if_neg (by omega : ¬(0 : ℤ) < h - a)]

/-! ## C3 -/

/-- C3: whenever `predict` returns a result for a snapshot whose raw
margin reaches `blowout_lead_threshold` with at most
`blowout_minutes_threshold` minutes remaining, the probabilities are
exactly (0.99, 0.01) oriented by the leader, `is_blowout` is true, and
both flip fields are `none` — regardless of the factors. -/
theorem C3_blowout_override (gs : GameState) (hs as : TeamStats)
    (hss ass : SeasonStats) (spread : Option ℝ) (age : ℝ) (en : Bool)
    (r : PredictionResult)
    (hres : predict gs hs as hss ass spread age en = some r)
    (hl : CONFIG.blowout_lead_threshold ≤ ((|gs.home_score - gs.away_score| : ℤ) : ℝ))
    (hm : snap_minutes_remaining gs ≤ CONFIG.blowout_minutes_threshold) :
    (gs.away_score < gs.home_score →
      r.win_prob_home = 0.99 ∧ r.win_prob_away = 0.01) ∧
    (gs.home_score < gs.away_score →
      r.win_prob_home = 0.01 ∧ r.win_prob_away = 0.99) ∧
    r.is_blowout = true ∧ r.flip_lead_home = none ∧ r.flip_swing = none := by
  have hne : gs.home_score ≠ gs.away_score := by
    intro he
    rw [he] at hl
    simp at hl
    norm_num [CONFIG] at hl
  unfold predict at hres
  dsimp only at hres
  split at hres
  · exact absurd hres (by simp)
  · rw [Option.some.injEq] at hres
    rcases lt_or_gt_of_ne hne with hlt | hgt
    · rw [check_blowout_eval_neg gs.home_score gs.away_score
        (snap_minutes_remaining gs) hl hm (by omega)] at hres
      dsimp only at hres
      rw [← hres]
      refine ⟨fun hc => absurd hc (by omega), fun _ => ⟨rfl, rfl⟩, rfl, rfl, rfl⟩
    · rw [check_blowout_eval_pos gs.home_score gs.away_score
        (snap_minutes_remaining gs) hl hm (by omega)] at hres
      dsimp only at hres
      rw [← hres]
      refine ⟨fun _ => ⟨rfl, rfl⟩, fun hc => absurd hc (by omega), rfl, rfl, rfl⟩

/-! ### Concrete evaluation of the blowout snapshot -/

theorem gsb_clock_eval : predict_clock gs_blowout = (2, 0) := by rfl

theorem gsb_mr_eval : snap_minutes_remaining gs_blowout = 2 := by
  unfold snap_minutes_remaining
  rw [gsb_clock_eval]
  have hq : gs_blowout.quarter = 4 := rfl
  unfold calc_time_values
  rw [hq]
  norm_num [max_def]

theorem gsb_mp_eval : snap_minutes_played gs_blowout = 46 := by
  unfold snap_minutes_played
  rw [gsb_clock_eval]
  have hq : gs_blowout.quarter = 4 := rfl
  unfold calc_time_values
  rw [hq]
  norm_num [max_def]

theorem gsb_status : get_game_status gs_blowout.status gs_blowout.quarter gs_blowout.clock ≠ "pre_game" := by
  decide

theorem gsb_not_none :
    predict gs_blowout stats0 stats0 season0 season0 none 0 false ≠ none := by
  intro h
  have hpos := predict_factors_sum_pos gs_blowout stats0 stats0 season0 season0 none false
    gsb_status (by rw [gsb_mp_eval]; norm_num)
  exact absurd ((predict_none_iff_total gs_blowout stats0 stats0 season0 season0
    none 0 false).mp h) hpos.ne'

theorem gsb_some :
    predict gs_blowout stats0 stats0 season0 season0 none 0 false = some r_blowout := by
  unfold r_blowout
  cases ho : predict gs_blowout stats0 stats0 season0 season0 none 0 false with
  | none => exact absurd ho gsb_not_none
  | some r => simp

/-- Witness for C3: in `gs_blowout` (home up 30 with 2:00 left in Q4)
the returned result carries the override pair and nulled flip fields. -/
theorem C3_witness :
    predict gs_blowout stats0 stats0 season0 season0 none 0 false = some r_blowout ∧
    r_blowout.win_prob_home = 0.99 ∧ r_blowout.win_prob_away = 0.01 ∧
    r_blowout.is_blowout = true ∧ r_blowout.flip_lead_home = none ∧
    r_blowout.flip_swing = none := by
  have h := C3_blowout_override gs_blowout stats0 stats0 season0 season0 none 0 false
    r_blowout gsb_some
    (by norm_num [CONFIG, gs_blowout])
    (by rw [gsb_mr_eval]; norm_num [CONFIG])
  have hlead : gs_blowout.away_score < gs_blowout.home_score := by decide
  exact ⟨gsb_some, (h.1 hlead).1, (h.1 hlead).2, h.2.2.1, h.2.2.2.1, h.2.2.2.2⟩

/-- Witness for C1 (for the `predict`-level conjunct, which carries a
hypothesis): the probabilities of the blowout result sum to 1. -/
theorem C1_witness :
    predict gs_blowout stats0 stats0 season0 season0 none 0 false = some r_blowout ∧
    r_blowout.win_prob_home + r_blowout.win_prob_away = 1 :=
  ⟨gsb_some, C1_win_probability_pair.2.2 gs_blowout stats0 stats0 season0 season0
    none 0 false r_blowout gsb_some⟩

/-! ## C4 -/

theorem spread_weight_none : (calc_spread_advantage none).weight = 0 := by
  unfold calc_spread_advantage
  norm_num

theorem spread_weight_some (s : ℝ) :
    (calc_spread_advantage (some s)).weight = CONFIG.spread_base_weight := rfl

/-- In a pre-game snapshot the raw factor weights sum to the spread
weight of the spread factor alone. -/
theorem pregame_total (gs : GameState) (hs as : TeamStats) (hss ass : SeasonStats)
    (spread : Option ℝ) (en : Bool)
    (hst : get_game_status gs.status gs.quarter gs.clock = "pre_game") :
    ((predict_factors gs hs as hss ass spread en).map fun f => f.weight).sum =
      (calc_spread_advantage spread).weight := by
  unfold predict_factors
  dsimp only
  rw [if_pos hst, if_pos hst, if_pos hst]
  simp [pre_game_lead_factor, pre_game_efficiency_factor]
  norm_num

/-- C4 (amended): `predict` abstains iff the snapshot is classified
pre-game — status not "Final" and (period 0 or clock absent), the
scores being irrelevant — and the spread is unavailable; for every
other snapshot (with non-negative computed minutes played) a result is
returned. -/
theorem C4_abstain_iff (gs : GameState) (hs as : TeamStats) (hss ass : SeasonStats)
    (spread : Option ℝ) (age : ℝ) (en : Bool)
    (hmp : 0 ≤ snap_minutes_played gs) :
    predict gs hs as hss ass spread age en = none ↔
      gs.status ≠ "Final" ∧ (gs.quarter = 0 ∨ gs.clock = none) ∧ spread = none := by
  rw [predict_none_iff_total]
  by_cases hst : get_game_status gs.status gs.quarter gs.clock = "pre_game"
  · rw [pregame_total gs hs as hss ass spread en hst]
    rcases (game_status_pre_iff _ _ _).mp hst with ⟨hfin, hper⟩
    cases spread with
    | none =>
      rw [spread_weight_none]
      simp [hfin, hper]
    | some s =>
      constructor
      · intro h
        rw [spread_weight_some] at h
        norm_num [CONFIG] at h
      · rintro ⟨-, -, h⟩
        cases h
  · have hpos := predict_factors_sum_pos gs hs as hss ass spread en hst hmp
    constructor
    · intro h
      exact absurd h hpos.ne'
    · rintro ⟨hfin, hper, -⟩
      exact absurd ((game_status_pre_iff _ _ _).mpr ⟨hfin, hper⟩) hst

theorem gsp_clock_eval : predict_clock gs_pre = (0, 0) := by rfl

theorem gsp_mp_eval : snap_minutes_played gs_pre = 0 := by
  unfold snap_minutes_played
  rw [gsp_clock_eval]
  have hq : gs_pre.quarter = 0 := rfl
  unfold calc_time_values
  rw [hq]
  norm_num [max_def]

/-- Witness for C4: a period-0, clockless, spreadless snapshot yields
no prediction. -/
theorem C4_witness :
    predict gs_pre stats0 stats0 season0 season0 none 0 false = none := by
  refine (C4_abstain_iff gs_pre stats0 stats0 season0 season0 none 0 false ?_).mpr
    ⟨by decide, Or.inl (by decide), rfl⟩
  rw [gsp_mp_eval]

/-- The no-clock snapshot with scores on the board still abstains
(without a spread): the code never consults the score. -/
theorem gsn_none :
    predict gs_noclock stats0 stats0 season0 season0 none 0 false = none := by
  rw [predict_none_iff_total]
  rw [pregame_total gs_noclock stats0 stats0 season0 season0 none false (by decide)]
  exact spread_weight_none

/-- Counterexample for C4 as stated: at period 1 with clock absent and
a 30–10 score, `predict` abstains although the claim (which requires
"no score yet" for a clock-absent abstention) says it should return a
result. -/
theorem C4_counterexample :
    ¬(predict gs_noclock stats0 stats0 season0 season0 none 0 false = none ↔
      ((gs_noclock.quarter = 0 ∨ (gs_noclock.clock = none ∧
          gs_noclock.home_score = 0 ∧ gs_noclock.away_score = 0)) ∧
        (none : Option ℝ) = none)) := by
  intro h
  have h2 := h.mp gsn_none
  rcases h2.1 with h3 | h3
  · exact absurd h3 (by decide)
  · exact absurd h3.2.1 (by decide)

/-! ## C5 -/

/-- C5 (amended): for period at least 1 and status not "Final", an absent
clock and an unparseable clock string both parse to `none` and are
replaced by the `(0,0)` start-of-period clock, producing identical
minutes remaining and played, and no error is raised — but the two
snapshots are classified differently (pre-game versus in-progress), so
the predictions themselves need not agree. -/
theorem C5_clock_fallback (gs : GameState) (h1 : 1 ≤ gs.quarter)
    (h2 : gs.status ≠ "Final") :
    parse_clock none = none ∧
    parse_clock (some "invalid") = none ∧
    predict_clock { gs with clock := none } = (0, 0) ∧
    predict_clock { gs with clock := some "invalid" } = (0, 0) ∧
    snap_minutes_remaining { gs with clock := none } =
      snap_minutes_remaining { gs with clock := some "invalid" } ∧
    snap_minutes_played { gs with clock := none } =
      snap_minutes_played { gs with clock := some "invalid" } ∧
    get_game_status gs.status gs.quarter none = "pre_game" ∧
    get_game_status gs.status gs.quarter (some "invalid") = "in_progress" := by
  refine ⟨rfl, rfl, rfl, rfl, rfl, rfl, ?_, ?_⟩
  · unfold get_game_status
    rw [if_neg h2, if_pos (Or.inr rfl)]
  · unfold get_game_status
    rw [if_neg h2]
    rw [if_neg (by simp; omega)]
    rw [if_neg (by simp)]
    rw [if_neg (by simp)]

/-- Witness for C5 at the concrete 30–10 period-1 snapshot. -/
theorem C5_witness :
    parse_clock none = none ∧
    parse_clock (some "invalid") = none ∧
    predict_clock { gs_noclock with clock := none } = (0, 0) ∧
    predict_clock { gs_noclock with clock := some "invalid" } = (0, 0) ∧
    snap_minutes_remaining { gs_noclock with clock := none } =
      snap_minutes_remaining { gs_noclock with clock := some "invalid" } ∧
    snap_minutes_played { gs_noclock with clock := none } =
      snap_minutes_played { gs_noclock with clock := some "invalid" } ∧
    get_game_status gs_noclock.status gs_noclock.quarter none = "pre_game" ∧
    get_game_status gs_noclock.status gs_noclock.quarter (some "invalid") =
      "in_progress" :=
  C5_clock_fallback gs_noclock (by decide) (by decide)

theorem gsbc_clock_eval : predict_clock gs_badclock = (0, 0) := by rfl

theorem gsbc_mp_eval : snap_minutes_played gs_badclock = 12 := by
  unfold snap_minutes_played
  rw [gsbc_clock_eval]
  have hq : gs_badclock.quarter = 1 := rfl
  unfold calc_time_values
  rw [hq]
  norm_num [max_def]

theorem gsbc_not_none :
    predict gs_badclock stats0 stats0 season0 season0 none 0 false ≠ none := by
  intro h
  have hpos := predict_factors_sum_pos gs_badclock stats0 stats0 season0 season0
    none false (by decide) (by rw [gsbc_mp_eval]; norm_num)
  exact absurd ((predict_none_iff_total gs_badclock stats0 stats0 season0 season0
    none 0 false).mp h) hpos.ne'

/-- Counterexample for C5 as stated: the same in-progress snapshot with
an absent clock abstains, but with the unparseable clock "invalid" it
returns a result — the two predictions differ. -/
theorem C5_counterexample :
    predict gs_noclock stats0 stats0 season0 season0 none 0 false ≠
      predict gs_badclock stats0 stats0 season0 season0 none 0 false := by
  intro h
  rw [gsn_none] at h
  exact gsbc_not_none h.symm

/-! ## C10 -/

/-- C10: a snapshot whose status is "Final" maps to the "final" game
status (the check precedes the pre-game test), so the lead and
efficiency factors are computed active from the final scores and box
stats, `predict` does not abstain (given non-negative computed minutes
played), and the returned result carries the normalized computed
factors. -/
theorem C10_final_predicts (gs : GameState) (hs as : TeamStats)
    (hss ass : SeasonStats) (spread : Option ℝ) (age : ℝ) (en : Bool)
    (hf : gs.status = "Final") (hmp : 0 ≤ snap_minutes_played gs) :
    get_game_status gs.status gs.quarter gs.clock = "final" ∧
    predict gs hs as hss ass spread age en ≠ none ∧
    predict_factors gs hs as hss ass spread en =
      [calc_lead_advantage gs.home_score gs.away_score (snap_minutes_remaining gs)
        (snap_minutes_played gs),
       calc_spread_advantage spread,
       calc_efficiency_advantage hs as hss ass (snap_minutes_played gs)] ++
      (if en = true then
        [calc_possession_edge_advantage hs as (snap_minutes_played gs)] else []) ∧
    (calc_lead_advantage gs.home_score gs.away_score (snap_minutes_remaining gs)
      (snap_minutes_played gs)).active = true ∧
    (calc_efficiency_advantage hs as hss ass (snap_minutes_played gs)).active = true ∧
    ∀ r, predict gs hs as hss ass spread age en = some r →
      r.factors = normalize_weights (predict_factors gs hs as hss ass spread en) := by
  have hstat : get_game_status gs.status gs.quarter gs.clock = "final" := by
    unfold get_game_status
    rw [if_pos hf]
  have hnp : get_game_status gs.status gs.quarter gs.clock ≠ "pre_game" := by
    rw [hstat]
    decide
  refine ⟨hstat, ?_, ?_, rfl, rfl, ?_⟩
  · intro h
    have hpos := predict_factors_sum_pos gs hs as hss ass spread en hnp hmp
    exact absurd ((predict_none_iff_total gs hs as hss ass spread age en).mp h) hpos.ne'
  · unfold predict_factors
    dsimp only
    rw [if_neg hnp, if_neg hnp, if_neg hnp]
    cases en <;> simp
  · exact fun r hr => predict_result_factors gs hs as hss ass spread age en r hr

theorem gsf_clock_eval : predict_clock gs_final = (0, 0) := by rfl

theorem gsf_mp_eval : snap_minutes_played gs_final = 48 := by
  unfold snap_minutes_played
  rw [gsf_clock_eval]
  have hq : gs_final.quarter = 4 := rfl
  unfold calc_time_values
  rw [hq]
  norm_num [max_def]

/-- Witness for C10: the concrete "Final" snapshot maps to status
"final" and yields a prediction. -/
theorem C10_witness :
    get_game_status gs_final.status gs_final.quarter gs_final.clock = "final" ∧
    predict gs_final stats0 stats0 season0 season0 none 0 false ≠ none := by
  have h := C10_final_predicts gs_final stats0 stats0 season0 season0 none 0 false
    rfl (by rw [gsf_mp_eval]; norm_num)
  exact ⟨h.1, h.2.1⟩

end NbaPicks
